import Mathlib

/-!
Verification of the fish-counter review application (`app/streamlit_app.py`).

This file gives a shallow embedding of the application's core: the log
parser (`parse_log`), the identifier normalizer (`_normalize_event_id`),
the video indexer (`index_videos`), the reconciler (`build_event_rows`),
and the SQLite-backed store operations (`upsert_events`, `save_event`,
`get_unreviewed_event_ids`, `get_events_overview`, the Back-button query,
and the Index/Reload handler).  File-system and database I/O are made
explicit: the log file becomes a list of lines, the recursive video scan
becomes the list of file paths it would visit, and the SQLite database
becomes a value of type `DB` holding the three tables as lists of rows.
Python string primitives used by the source (`str.strip`, `str.split`,
`str.isdigit`, `int(...)`, zero-padded formatting) are modelled over the
ASCII fragment the log format exercises.

Theorems settling the specification claims follow the definitions.
-/

/-! ## Python string primitives (ASCII fragment) -/

/-- Whitespace characters recognised by Python's `str.strip` / `str.split`
(ASCII fragment: space, tab, newline, carriage return, vertical tab,
form feed). -/
def pyWs (c : Char) : Bool :=
  c == ' ' || c == '\t' || c == '\n' || c == '\r' || c == Char.ofNat 11 || c == Char.ofNat 12

/-- Numeric value of a list of decimal digit characters (0 for `[]`). -/
def digitsToNat (cs : List Char) : Nat :=
  cs.foldl (fun n c => 10 * n + (c.toNat - 48)) 0

/-- Remove leading and trailing `pyWs` characters, as Python `str.strip()`. -/
def stripList (cs : List Char) : List Char :=
  (((cs.dropWhile pyWs).reverse.dropWhile pyWs)).reverse

/-- Python `str.strip()`. -/
def pyStrip (s : String) : String :=
  String.mk (stripList s.data)

/-- Helper for `pySplitWs`: split a character list on `pyWs` runs,
keeping empty chunks (they are filtered out by the caller). -/
def splitWsAux : List Char → List Char → List (List Char)
  | [], acc => [acc.reverse]
  | c :: cs, acc => if pyWs c then acc.reverse :: splitWsAux cs [] else splitWsAux cs (c :: acc)

/-- Python `str.split()` with no argument: split on whitespace runs and
discard empty tokens. -/
def pySplitWs (s : String) : List String :=
  ((splitWsAux s.data []).filter (fun l => !l.isEmpty)).map (fun l => String.mk l)

/-- Python `str.lower()` (ASCII fragment). -/
def pyLower (s : String) : String :=
  String.mk (s.data.map Char.toLower)

/-- Python `str.isdigit()` on the ASCII fragment: non-empty and all
decimal digits. -/
def pyIsdigit (s : String) : Bool :=
  !s.data.isEmpty && s.data.all Char.isDigit

/-- Helper for `pyInt?`: an optional non-empty run of decimal digits. -/
def pyIntDigits (cs : List Char) : Option Int :=
  if !cs.isEmpty && cs.all Char.isDigit then some (Int.ofNat (digitsToNat cs)) else none

/-- Python `int(s)` as a partial function: surrounding whitespace is
stripped, an optional single sign is allowed, then a non-empty run of
decimal digits (underscore digit grouping, a Python extension never
produced by the counter hardware, is outside the modelled fragment). -/
def pyInt? (s : String) : Option Int :=
  match (pyStrip s).data with
  | [] => none
  | c :: cs =>
    if c == '+' then pyIntDigits cs
    else if c == '-' then (pyIntDigits cs).map (fun n => -n)
    else pyIntDigits (c :: cs)

/-- Left-pad a numeral with zeros to the given width. -/
def padZeros (w : Nat) (s : String) : String :=
  if s.length < w then String.mk (List.replicate (w - s.length) '0') ++ s else s

/-- Python's fixed-width format `f"{i:0wd}"` for integers: the sign, when
present, counts towards the width. -/
def pyFmtInt (w : Nat) (i : Int) : String :=
  if i < 0 then "-" ++ padZeros (w - 1) (toString (-i).toNat) else padZeros w (toString i.toNat)

/-! ## Log parser (`parse_log`) -/

/-- A parsed detection event, mirroring the row dictionaries produced by
`parse_log`. -/
structure RawEvent where
  event_id : String
  ts : String
  raw_dir : String
  m1 : Option Int
  m2 : Option Int
  m3 : Option Int
deriving DecidableEq

/-- Shape check for the timestamp head of the narrative regex:
`\d{4}-\d{2}-\d{2} \d{2}:\d{2}:\d{2}` (19 characters). -/
def tsShapeOk : List Char → Bool
  | [y1, y2, y3, y4, d1, mo1, mo2, d2, da1, da2, sp, h1, h2, c1, mi1, mi2, c2, s1, s2] =>
    y1.isDigit && y2.isDigit && y3.isDigit && y4.isDigit && d1 == '-' &&
    mo1.isDigit && mo2.isDigit && d2 == '-' && da1.isDigit && da2.isDigit &&
    sp == ' ' && h1.isDigit && h2.isDigit && c1 == ':' && mi1.isDigit && mi2.isDigit &&
    c2 == ':' && s1.isDigit && s2.isDigit
  | _ => false

/-- The literal between the timestamp and the event id in the narrative
grammar. -/
def fish_literal : List Char :=
  (" - Fish measurement received with ID ").data

/-- Helper for `fish_event_match`: after the timestamp, expect the
literal, then the id digits, then only trailing whitespace (`\s*$`). -/
def fishFinish (tsChars rest : List Char) : Option (String × String) :=
  if rest.take fish_literal.length = fish_literal then
    let after := rest.drop fish_literal.length
    let ids := after.takeWhile Char.isDigit
    if ids.isEmpty then none
    else if (after.drop ids.length).all pyWs then some (String.mk tsChars, String.mk ids)
    else none
  else none

/-- The narrative-form regex
`^(ts)(\.\d+)? - Fish measurement received with ID (\d+)\s*$`, returning
the raw timestamp text and the event id on a match. -/
def fish_event_match (line : String) : Option (String × String) :=
  let cs := line.data
  if tsShapeOk (cs.take 19) then
    match cs.drop 19 with
    | '.' :: tl =>
      let ds := tl.takeWhile Char.isDigit
      if ds.isEmpty then none
      else fishFinish (cs.take 19 ++ '.' :: ds) (tl.drop ds.length)
    | rest => fishFinish (cs.take 19) rest
  else none

/-- Timestamp stored for a narrative line.  On a regex match the source
either reformats via `datetime.fromisoformat(...).strftime(...)` or, on a
`ValueError`, falls back to `ts_raw.split(".")[0]`; for every string
matching the fixed-width regex both branches yield the 19-character
prefix, which is what this function returns. -/
def narrative_ts (ts_raw : String) : String :=
  String.mk (ts_raw.data.take 19)

/-- Columnar timestamp `f"{year:04d}-{month:02d}-{day:02d} {hour:02d}:{minute:02d}:00"`. -/
def mkColumnarTs (year month day hour minute : Int) : String :=
  pyFmtInt 4 year ++ ("-" ++ (pyFmtInt 2 month ++ ("-" ++ (pyFmtInt 2 day ++
    (" " ++ (pyFmtInt 2 hour ++ (":" ++ (pyFmtInt 2 minute ++ ":00"))))))))

/-- Mutable state of the `parse_log` line loop, together with the
diagnostics the loop accumulates (`folder_stamp`). -/
structure ParseState where
  in_data : Bool
  saw_data_marker : Bool
  base_year : Option Int
  rows : List RawEvent
  folder_stamp : Option String
deriving DecidableEq

/-- Parser state before any line is handled. -/
def initParseState : ParseState :=
  { in_data := false, saw_data_marker := false, base_year := none, rows := [], folder_stamp := none }

/-- A `#`- or `;`-prefixed comment line. -/
def isCommentLine (line : String) : Bool :=
  match line.data with
  | c :: _ => c == '#' || c == ';'
  | [] => false

/-- One iteration of the `for raw in f` loop of `parse_log`, given the
year `datetime.now().year` would return at parse time. -/
def parseLine (currentYear : Int) (st : ParseState) (raw : String) : ParseState :=
  let line := pyStrip raw
  if line = ("") then st
  else if isCommentLine line then st
  else if pyLower line = ("[data]") then { st with in_data := true, saw_data_marker := true }
  else if st.saw_data_marker && !st.in_data then st
  else if !st.saw_data_marker then
    match fish_event_match line with
    | some m =>
      let r : RawEvent :=
        { event_id := m.2, ts := narrative_ts m.1, raw_dir := (""),
          m1 := none, m2 := none, m3 := none }
      { st with rows := st.rows ++ [r] }
    | none => st
  else
    let parts := pySplitWs line
    if parts.length == 5 && pyIsdigit (parts.getD 0 ("")) && st.base_year.isNone then
      { st with
          base_year := some (2000 + Int.ofNat (digitsToNat (parts.getD 0 ("")).data))
          folder_stamp := some (String.intercalate (" ") parts) }
    else if parts.length < 9 then st
    else
      let m12 : Option Int × Option Int :=
        match pyInt? (parts.getD 1 ("")), pyInt? (parts.getD 2 ("")) with
        | some a, some b => (some a, some b)
        | _, _ => (none, none)
      match pyInt? (parts.getD 3 ("")), pyInt? (parts.getD 4 ("")),
            pyInt? (parts.getD 5 ("")), pyInt? (parts.getD 6 ("")) with
      | some month, some day, some hour, some minute =>
        let year := st.base_year.getD currentYear
        let r : RawEvent :=
          { event_id := pyStrip (parts.getD 0 ("")),
            ts := mkColumnarTs year month day hour minute,
            raw_dir := parts.getD 7 (""), m1 := m12.1, m2 := m12.2,
            m3 := pyInt? (parts.getD 8 ("")) }
        { st with rows := st.rows ++ [r] }
      | _, _, _, _ => st

/-- `parse_log`: fold the line handler over the log's lines; returns the
event rows and the final loop state (whose `rows.length` and
`folder_stamp` are the returned diagnostics). -/
def parse_log (currentYear : Int) (lines : List String) : List RawEvent × ParseState :=
  let st := lines.foldl (parseLine currentYear) initParseState
  (st.rows, st)

/-! ## Identifier normalization and video index -/

/-- `_normalize_event_id`: strip surrounding whitespace; purely numeric
ids get their leading zeros removed (`"0"` if nothing remains); anything
else is returned as stripped. -/
def _normalize_event_id (event_id : String) : String :=
  let cleaned := pyStrip event_id
  if pyIsdigit cleaned then
    let stripped := String.mk (cleaned.data.dropWhile (fun c => c == '0'))
    if stripped = ("") then ("0") else stripped
  else cleaned

/-- `pathlib.Path(p).stem` for a slash-separated path: the final
component with its last extension removed (a dot in first position is
not an extension). -/
def pathStem (p : String) : String :=
  let nm := ((p.splitOn ("/")).reverse).headD p
  let cs := nm.data
  match cs.reverse.findIdx? (fun c => c == '.') with
  | some i =>
    let pos := cs.length - 1 - i
    if pos = 0 then nm else String.mk (cs.take pos)
  | none => nm

/-- First-match lookup in an association list, as `dict.get`. -/
def assocLookup (idx : List (String × String)) (k : String) : Option String :=
  (idx.find? (fun e => e.1 == k)).map (fun e => e.2)

/-- `dict.setdefault(k, v)`: insert only when the key is absent
(first-writer-wins). -/
def setdefault (idx : List (String × String)) (k v : String) : List (String × String) :=
  if (assocLookup idx k).isSome then idx else idx ++ [(k, v)]

/-- `index_videos`: walk the mp4 files (given in `rglob` visiting order)
and register each file under its stripped stem and under the normalized
stem, skipping files with an empty stem. -/
def index_videos (videoFiles : List String) : List (String × String) :=
  videoFiles.foldl (fun idx p =>
    let stem := pyStrip (pathStem p)
    if stem = ("") then idx
    else setdefault (setdefault idx stem p) (_normalize_event_id stem) p) []

/-! ## Reconciler (`build_event_rows`) -/

/-- A row of the `events` table. -/
structure EventRow where
  event_id : String
  ts : Option String
  raw_dir : String
  m1 : Option Int
  m2 : Option Int
  m3 : Option Int
  video_abs : String
  video_rel : String
  has_video : Bool
deriving DecidableEq

/-- `Path.relative_to(root)` for slash-separated paths: defined exactly
when `root ++ "/"` is a prefix of the path. -/
def relative_to? (root p : String) : Option String :=
  let rootSlash := (root ++ ("/")).data
  if p.data.take rootSlash.length = rootSlash then some (String.mk (p.data.drop rootSlash.length))
  else none

/-- The per-event body of the `build_event_rows` loop: direct lookup,
then normalized lookup; on a hit compute the relative path (falling back
to the absolute path when `relative_to` raises); on a miss both path
fields are empty and `has_video` is false. -/
def reconcile_row (vidx : List (String × String)) (video_library_root : String)
    (r : RawEvent) : EventRow :=
  let eid := r.event_id
  match (assocLookup vidx eid).orElse (fun _ => assocLookup vidx (_normalize_event_id eid)) with
  | some vpath =>
    let rel := match relative_to? video_library_root vpath with
      | some s => s
      | none => vpath
    { event_id := eid, ts := some r.ts, raw_dir := r.raw_dir, m1 := r.m1, m2 := r.m2,
      m3 := r.m3, video_abs := vpath, video_rel := rel, has_video := true }
  | none =>
    { event_id := eid, ts := some r.ts, raw_dir := r.raw_dir, m1 := r.m1, m2 := r.m2,
      m3 := r.m3, video_abs := (""), video_rel := (""), has_video := false }

/-- The reconciliation loop over all parsed events. -/
def reconcile_rows (parsed : List RawEvent) (vidx : List (String × String))
    (video_library_root : String) : List EventRow :=
  parsed.map (reconcile_row vidx video_library_root)

/-- Error message of the `FileNotFoundError` raised by `build_event_rows`. -/
def no_log_msg : String :=
  "No .log file found in Project root."

/-- Error message of the `ValueError` raised by `build_event_rows` when
parsing yields no events. -/
def no_data_msg : String :=
  "No events were parsed from the .log file. Check that the log contains a [data] section with event rows and that the project root points to the correct folder."

/-- `build_event_rows`: the found log file's lines stand in for the file
system (`none` models the absence of a `.log` file), `videoFiles` is the
video scan result.  Raised exceptions become `Except.error`. -/
def build_event_rows (logLines : Option (List String)) (currentYear : Int)
    (videoFiles : List String) (video_library_root : String) :
    Except String (List EventRow) :=
  match logLines with
  | none => .error no_log_msg
  | some lines =>
    let parsed := (parse_log currentYear lines).1
    if parsed.isEmpty then .error no_data_msg
    else
      let vidx := index_videos videoFiles
      .ok (reconcile_rows parsed vidx video_library_root)

/-! ## Store: tables, upserts, queries -/

/-- A row of the `event_status` table. -/
structure StatusRow where
  event_id : String
  false_trigger : Int
  notes : String
  reviewed_at : Option String
deriving DecidableEq

/-- A row of the `counts` table. -/
structure CountRow where
  event_id : String
  species : String
  movement : String
  count : Int
deriving DecidableEq

/-- The SQLite database: the three tables, each as its list of rows in
physical order. -/
structure DB where
  events : List EventRow
  event_status : List StatusRow
  counts : List CountRow
deriving DecidableEq

/-- One `INSERT ... ON CONFLICT(event_id) DO UPDATE` into `events`:
an existing row with the same key is overwritten in place, otherwise the
row is appended. -/
def upsertEventRow (rows : List EventRow) (r : EventRow) : List EventRow :=
  if rows.any (fun e => e.event_id == r.event_id) then
    rows.map (fun e => if e.event_id == r.event_id then r else e)
  else rows ++ [r]

/-- `upsert_events`: the `executemany` upsert over the whole batch; it
writes the `events` table only. -/
def upsert_events (db : DB) (rows : List EventRow) : DB :=
  { db with events := rows.foldl upsertEventRow db.events }

/-- SQLite `CAST(s AS INTEGER)`: the longest signed-integer prefix after
leading whitespace, and 0 when there is none. -/
def sqliteCastInt (s : String) : Int :=
  match s.data.dropWhile pyWs with
  | '+' :: tl => Int.ofNat (digitsToNat (tl.takeWhile Char.isDigit))
  | '-' :: tl => -Int.ofNat (digitsToNat (tl.takeWhile Char.isDigit))
  | cs => Int.ofNat (digitsToNat (cs.takeWhile Char.isDigit))

/-- SQLite `event_id GLOB '[0-9]*'`: the id starts with a decimal digit. -/
def glob_digit_head (s : String) : Bool :=
  match s.data with
  | c :: _ => c.isDigit
  | [] => false

/-- Three-way comparison of characters by codepoint. -/
def cmpChar (a b : Char) : Ordering :=
  if a.toNat < b.toNat then Ordering.lt
  else if b.toNat < a.toNat then Ordering.gt
  else Ordering.eq

/-- Lexicographic three-way comparison of character lists. -/
def cmpCharList : List Char → List Char → Ordering
  | [], [] => Ordering.eq
  | [], _ :: _ => Ordering.lt
  | _ :: _, [] => Ordering.gt
  | a :: as, b :: bs =>
    match cmpChar a b with
    | Ordering.eq => cmpCharList as bs
    | o => o

/-- Three-way comparison of strings under SQLite's BINARY collation
(bytewise, which for UTF-8 coincides with codepoint order). -/
def cmpStr (a b : String) : Ordering :=
  cmpCharList a.data b.data

/-- Three-way comparison of integers. -/
def cmpInt (a b : Int) : Ordering :=
  if a < b then Ordering.lt else if b < a then Ordering.gt else Ordering.eq

/-- Comparison of a nullable text sort key: SQLite sorts NULL before any
value in ascending order. -/
def cmpOptStr : Option String → Option String → Ordering
  | none, none => Ordering.eq
  | none, some _ => Ordering.lt
  | some _, none => Ordering.gt
  | some a, some b => cmpStr a b

/-- Comparison of a nullable integer sort key, NULL first. -/
def cmpOptInt : Option Int → Option Int → Ordering
  | none, none => Ordering.eq
  | none, some _ => Ordering.lt
  | some _, none => Ordering.gt
  | some a, some b => cmpInt a b

/-- The `CASE WHEN event_id GLOB '[0-9]*' THEN CAST(event_id AS INTEGER) END`
sort key (NULL for ids that do not start with a digit). -/
def canonIntKey (e : EventRow) : Option Int :=
  if glob_digit_head e.event_id then some (sqliteCastInt e.event_id) else none

/-- The canonical `ORDER BY` of the listing queries:
`(ts IS NULL) ASC, ts ASC, CASE ... END ASC, event_id ASC`. -/
def canonCompare (a b : EventRow) : Ordering :=
  (cmpInt (if a.ts.isNone then 1 else 0) (if b.ts.isNone then 1 else 0)).then
    ((cmpOptStr a.ts b.ts).then
      ((cmpOptInt (canonIntKey a) (canonIntKey b)).then (cmpStr a.event_id b.event_id)))

/-- Boolean `≤` derived from `canonCompare`, for sorting. -/
def canonLe (a b : EventRow) : Bool :=
  match canonCompare a b with
  | Ordering.gt => false
  | _ => true

/-- Insert into a sorted list (helper of `sortLe`). -/
def insertLe {α : Type} (le : α → α → Bool) (a : α) : List α → List α
  | [] => [a]
  | b :: bs => if le a b then a :: b :: bs else b :: insertLe le a bs

/-- Stable insertion sort, modelling a SQL `ORDER BY`. -/
def sortLe {α : Type} (le : α → α → Bool) : List α → List α
  | [] => []
  | a :: as => insertLe le a (sortLe le as)

/-- The `LEFT JOIN event_status` lookup for an event. -/
def statusLookup (db : DB) (event_id : String) : Option StatusRow :=
  db.event_status.find? (fun s => s.event_id == event_id)

/-- `get_unreviewed_event_ids`: ids of events with no `reviewed_at`
(missing status row included), in canonical order. -/
def get_unreviewed_event_ids (db : DB) : List String :=
  ((sortLe canonLe db.events).filter (fun e =>
    match statusLookup db e.event_id with
    | some s => s.reviewed_at.isNone
    | none => true)).map (fun e => e.event_id)

/-- `get_events_overview`: every event joined with its status row, in
canonical order. -/
def get_events_overview (db : DB) : List (EventRow × Option StatusRow) :=
  (sortLe canonLe db.events).map (fun e => (e, statusLookup db e.event_id))

/-- `get_event`: primary-key lookup in `events`. -/
def get_event (db : DB) (event_id : String) : Option EventRow :=
  db.events.find? (fun e => e.event_id == event_id)

/-- `load_counts`: the tally dictionary for an event. -/
def load_counts (db : DB) (event_id : String) : List ((String × String) × Int) :=
  (db.counts.filter (fun c => c.event_id == event_id)).map
    (fun c => ((c.species, c.movement), c.count))

/-- `load_status`: the status row for an event, synthesising the default
when none is stored. -/
def load_status (db : DB) (event_id : String) : StatusRow :=
  match db.event_status.find? (fun s => s.event_id == event_id) with
  | some r => r
  | none => { event_id := event_id, false_trigger := 0, notes := (""), reviewed_at := none }

/-! ## `save_event` as a SQLite transaction -/

/-- The `counts` row built from one tally entry for the given event. -/
def tally_count_row (event_id : String) (e : (String × String) × Int) : CountRow :=
  { event_id := event_id, species := e.1.1, movement := e.1.2, count := e.2 }

/-- The rows `save_event` inserts: exactly the strictly positive entries
of the in-memory tally, in dictionary order. -/
def positive_count_rows (event_id : String) (tally : List ((String × String) × Int)) :
    List CountRow :=
  (tally.filter (fun e => 0 < e.2)).map (tally_count_row event_id)

/-- The statements executed by `save_event`, in order.  With Python's
sqlite3 default isolation level the first DML statement opens an implicit
transaction and only `conn.commit()` publishes it, so the first three
steps act on an uncommitted working copy. -/
inductive SaveStep where
  | deleteCounts
  | insertCounts
  | upsertStatus
  | commitTxn
deriving DecidableEq

/-- `INSERT ... ON CONFLICT(event_id) DO UPDATE` into `event_status`. -/
def upsertStatusRow (rows : List StatusRow) (r : StatusRow) : List StatusRow :=
  if rows.any (fun s => s.event_id == r.event_id) then
    rows.map (fun s => if s.event_id == r.event_id then r else s)
  else rows ++ [r]

/-- Execute one `save_event` statement on a (durable, working) pair of
database states. -/
def applySaveStep (event_id : String) (tally : List ((String × String) × Int))
    (notes : String) (false_trigger : Int) (reviewed_at : String)
    (s : DB × DB) (step : SaveStep) : DB × DB :=
  match step with
  | SaveStep.deleteCounts =>
    (s.1, { s.2 with counts := s.2.counts.filter (fun c => !(c.event_id == event_id)) })
  | SaveStep.insertCounts =>
    (s.1, { s.2 with counts := s.2.counts ++ positive_count_rows event_id tally })
  | SaveStep.upsertStatus =>
    (s.1, { s.2 with
        event_status := upsertStatusRow s.2.event_status
          { event_id := event_id, false_trigger := false_trigger, notes := notes,
            reviewed_at := some reviewed_at } })
  | SaveStep.commitTxn => (s.2, s.2)

/-- The statement sequence of `save_event`. -/
def saveEventSteps : List SaveStep :=
  [SaveStep.deleteCounts, SaveStep.insertCounts, SaveStep.upsertStatus, SaveStep.commitTxn]

/-- Run an initial segment of `save_event`'s statements from a committed
state (an injected failure stops the run after any step). -/
def run_save (db : DB) (event_id : String) (tally : List ((String × String) × Int))
    (notes : String) (false_trigger : Int) (reviewed_at : String)
    (steps : List SaveStep) : DB × DB :=
  steps.foldl (applySaveStep event_id tally notes false_trigger reviewed_at) (db, db)

/-- `save_event`: all four statements, ending in the commit. -/
def save_event (db : DB) (event_id : String) (tally : List ((String × String) × Int))
    (notes : String) (false_trigger : Int) (reviewed_at : String) : DB :=
  (run_save db event_id tally notes false_trigger reviewed_at saveEventSteps).1

/-! ## Back-button navigation and the Index/Reload handler -/

/-- The SQL `WHERE (ts < ? OR (ts = ? AND CAST(event_id AS INTEGER) <
CAST(? AS INTEGER)))` of the Back button, under SQL three-valued logic:
a comparison against NULL is unknown, and a row qualifies only when the
whole condition is true. -/
def backWhere (cur : EventRow) (e : EventRow) : Bool :=
  match e.ts, cur.ts with
  | some a, some b =>
    match cmpStr a b with
    | Ordering.lt => true
    | Ordering.eq => decide (sqliteCastInt e.event_id < sqliteCastInt cur.event_id)
    | Ordering.gt => false
  | _, _ => false

/-- The Back button's `ORDER BY ts DESC, CAST(event_id AS INTEGER) DESC`. -/
def backDescLe (a b : EventRow) : Bool :=
  match (cmpOptStr b.ts a.ts).then (cmpInt (sqliteCastInt b.event_id) (sqliteCastInt a.event_id)) with
  | Ordering.gt => false
  | _ => true

/-- The Back button's predecessor query (`... LIMIT 1`). -/
def back_button_query (events : List EventRow) (cur : EventRow) : Option String :=
  ((sortLe backDescLe (events.filter (backWhere cur))).head?).map (fun e => e.event_id)

/-- The Index / Reload handler: on any exception from `build_event_rows`
the error is surfaced and the handler stops before touching the store;
otherwise the built rows are upserted.  Returns the resulting store and
the surfaced error, if any. -/
def index_reload (db : DB) (logLines : Option (List String)) (currentYear : Int)
    (videoFiles : List String) (video_library_root : String) : DB × Option String :=
  match build_event_rows logLines currentYear videoFiles video_library_root with
  | Except.error e => (db, some e)
  | Except.ok rows => (upsert_events db rows, none)

/-! ## Concrete stores and inputs used by the claim theorems -/

/-- An `events` row carrying only an id and a timestamp (the fields the
ordering and navigation queries read). -/
def mkEv (id : String) (ts : Option String) : EventRow :=
  { event_id := id, ts := ts, raw_dir := (""), m1 := none, m2 := none, m3 := none,
    video_abs := (""), video_rel := (""), has_video := false }

/-- Two stored events: one timestamped, one with a NULL timestamp. -/
def back_demo_events : List EventRow :=
  [mkEv ("1") (some ("2025-01-01 00:00:00")), mkEv ("2") none]

/-- Store holding `back_demo_events`. -/
def back_demo_db : DB :=
  { events := back_demo_events, event_status := [], counts := [] }

/-- The three events of the canonical-ordering example of the spec. -/
def order_demo_db : DB :=
  { events := [mkEv ("5") none, mkEv ("3") (some ("2025-11-03 14:00:00")),
      mkEv ("10") (some ("2025-11-01 09:00:00"))],
    event_status := [], counts := [] }

/-- A data section with a folder stamp followed by one event line. -/
def stamp_demo_lines : List String :=
  ["[data]", "25 11 03 14 30", "7 1 2 11 3 14 30 + 5"]

/-- A data section with no folder stamp. -/
def no_stamp_demo_lines : List String :=
  ["[data]", "7 1 2 11 3 14 30 + 5"]

/-- A data section where a 5-token line with a numeric first token but
non-numeric remaining tokens comes before a fully numeric 5-token line. -/
def mixed_stamp_demo_lines : List String :=
  ["[data]", "25 x x x x", "26 11 03 14 30", "7 1 2 11 3 14 30 + 5"]

/-- Parser state directly after the `[data]` marker. -/
def data_state : ParseState :=
  { in_data := true, saw_data_marker := true, base_year := none, rows := [], folder_stamp := none }

/-- A one-file video index whose only key is the normalized id `7`. -/
def video_demo_idx : List (String × String) :=
  [("7", "lib/7.mp4")]

/-- A parsed event whose id `007` matches `video_demo_idx` only after
normalization. -/
def video_demo_raw : RawEvent :=
  { event_id := ("007"), ts := ("2025-01-01 00:00:00"), raw_dir := (""),
    m1 := none, m2 := none, m3 := none }

/-- An in-memory tally with one positive and one zero entry. -/
def save_demo_tally : List ((String × String) × Int) :=
  [(("Chinook", "Up"), 2), (("Rainbow", "Down"), 0)]

/-- A store with pre-existing review data for events `7` and `9`. -/
def save_demo_db : DB :=
  let st7 : StatusRow :=
    { event_id := ("7"), false_trigger := 0, notes := ("old"), reviewed_at := some ("2024-01-01") }
  let c7 : CountRow :=
    { event_id := ("7"), species := ("Coho"), movement := ("Up"), count := 3 }
  let c9 : CountRow :=
    { event_id := ("9"), species := ("Coho"), movement := ("Up"), count := 1 }
  { events := [mkEv ("7") none], event_status := [st7], counts := [c7, c9] }

/-! ## Helper lemmas on `dropWhile` and `pyStrip` -/

/-- Dropping a prefix twice drops it once. -/
theorem dropWhile_idem {α : Type} (p : α → Bool) (l : List α) :
    (l.dropWhile p).dropWhile p = l.dropWhile p := by
  induction l with
  | nil => rfl
  | cons a t ih =>
    by_cases h : p a = true
    · simp [List.dropWhile_cons, h, ih]
    · simp [List.dropWhile_cons, h]

/-- The head surviving `dropWhile` does not satisfy the predicate. -/
theorem dropWhile_head_not {α : Type} (p : α → Bool) (l : List α) (c : α) (t : List α)
    (h : l.dropWhile p = c :: t) : p c = false := by
  induction l with
  | nil => simp [List.dropWhile] at h
  | cons a t' ih =>
    by_cases hpa : p a = true
    · rw [List.dropWhile_cons, if_pos hpa] at h
      exact ih h
    · rw [List.dropWhile_cons, if_neg hpa] at h
      cases h
      simpa using hpa

/-- `dropWhile` removes an initial segment. -/
theorem exists_append_dropWhile {α : Type} (p : α → Bool) (l : List α) :
    ∃ u, u ++ l.dropWhile p = l := by
  induction l with
  | nil => exact ⟨[], rfl⟩
  | cons a t ih =>
    by_cases hpa : p a = true
    · obtain ⟨u, hu⟩ := ih
      exact ⟨a :: u, by simp [List.dropWhile_cons, hpa, hu]⟩
    · exact ⟨[], by simp [List.dropWhile_cons, hpa]⟩

/-- If no element satisfies the predicate, `dropWhile` is the identity. -/
theorem dropWhile_eq_self_of_all_not {α : Type} (p : α → Bool) (l : List α)
    (h : ∀ c ∈ l, p c = false) : l.dropWhile p = l := by
  cases l with
  | nil => rfl
  | cons a t => simp [List.dropWhile_cons, h a (List.mem_cons_self a t)]

/-- A stripped list has no leading whitespace left. -/
theorem stripList_dropWhile (cs : List Char) :
    (stripList cs).dropWhile pyWs = stripList cs := by
  unfold stripList
  obtain ⟨u, hu⟩ := exists_append_dropWhile pyWs (cs.dropWhile pyWs).reverse
  have hb : ((cs.dropWhile pyWs).reverse.dropWhile pyWs).reverse ++ u.reverse
      = cs.dropWhile pyWs := by
    have h2 := congrArg List.reverse hu
    simpa using h2
  cases hcb : ((cs.dropWhile pyWs).reverse.dropWhile pyWs).reverse with
  | nil => simp
  | cons c t =>
    have hcs : cs.dropWhile pyWs = c :: (t ++ u.reverse) := by
      rw [hcb] at hb
      simpa using hb.symm
    have hc : pyWs c = false := dropWhile_head_not pyWs cs c (t ++ u.reverse) hcs
    simp [List.dropWhile_cons, hc]

/-- Stripping is idempotent (`str.strip` of a stripped string). -/
theorem stripList_idem (cs : List Char) : stripList (stripList cs) = stripList cs := by
  conv_lhs => rw [stripList]
  rw [stripList_dropWhile]
  show ((stripList cs).reverse.dropWhile pyWs).reverse = stripList cs
  rw [stripList]
  rw [List.reverse_reverse, dropWhile_idem]

/-- `pyStrip` is idempotent. -/
theorem pyStrip_idem (s : String) : pyStrip (pyStrip s) = pyStrip s := by
  show String.mk (stripList (String.mk (stripList s.data)).data) = String.mk (stripList s.data)
  rw [show (String.mk (stripList s.data)).data = stripList s.data from rfl, stripList_idem]

/-- Decimal digits are not Python whitespace. -/
theorem pyWs_false_of_digit (c : Char) (h : c.isDigit = true) : pyWs c = false := by
  by_contra hw
  rw [Bool.not_eq_false] at hw
  simp only [pyWs, Bool.or_eq_true, beq_iff_eq] at hw
  rcases hw with ((((rfl | rfl) | rfl) | rfl) | rfl) | rfl <;> exact absurd h (by decide)

/-- A list of digits strips to itself. -/
theorem stripList_of_digits (cs : List Char) (h : cs.all Char.isDigit = true) :
    stripList cs = cs := by
  have hmem : ∀ c ∈ cs, pyWs c = false := by
    intro c hc
    exact pyWs_false_of_digit c (by
      have := List.all_eq_true.mp h c hc
      simpa using this)
  unfold stripList
  rw [dropWhile_eq_self_of_all_not pyWs cs hmem,
    dropWhile_eq_self_of_all_not pyWs cs.reverse (fun c hc => hmem c (List.mem_reverse.mp hc)),
    List.reverse_reverse]

/-- Rebuilding a string from its characters is the identity. -/
theorem string_mk_data (s : String) : String.mk s.data = s := rfl

/-- A purely numeric string strips to itself. -/
theorem pyStrip_of_digits (s : String) (h : s.data.all Char.isDigit = true) :
    pyStrip s = s := by
  show String.mk (stripList s.data) = s
  rw [stripList_of_digits s.data h, string_mk_data]

/-- C7, counterexample: `" abc "` is a non-numeric identifier the
normalizer does not pass through unchanged (it strips the whitespace). -/
theorem normalize_passthrough_counterexample :
    pyIsdigit (" abc ") = false ∧ _normalize_event_id (" abc ") = ("abc") ∧
    ¬ _normalize_event_id (" abc ") = (" abc ") := by
  refine ⟨by decide, by decide, by decide⟩

/-- C7 (amended): normalization is idempotent and satisfies the three
examples; identifiers that are purely numeric after whitespace stripping
have their leading zeros removed, and every other identifier passes
through with only its surrounding whitespace stripped. -/
theorem normalize_idempotent_amended :
    (∀ x : String, _normalize_event_id (_normalize_event_id x) = _normalize_event_id x) ∧
    _normalize_event_id ("007") = ("7") ∧
    _normalize_event_id ("000") = ("0") ∧
    _normalize_event_id ("abc") = ("abc") ∧
    _normalize_event_id (" 007 ") = ("7") ∧
    (∀ x : String, pyIsdigit (pyStrip x) = false → _normalize_event_id x = pyStrip x) := by
  have hpass : ∀ x : String, pyIsdigit (pyStrip x) = false → _normalize_event_id x = pyStrip x := by
    intro x h
    unfold _normalize_event_id
    simp [h]
  refine ⟨?_, by decide, by decide, by decide, by decide, hpass⟩
  intro x
  by_cases hd : pyIsdigit (pyStrip x) = true
  · have hx : _normalize_event_id x =
        (if String.mk ((pyStrip x).data.dropWhile (fun c => c == '0')) = ("") then ("0")
         else String.mk ((pyStrip x).data.dropWhile (fun c => c == '0'))) := by
      unfold _normalize_event_id
      simp [hd]
    by_cases hz : String.mk ((pyStrip x).data.dropWhile (fun c => c == '0')) = ("")
    · rw [hx, if_pos hz]
      decide
    · rw [hx, if_neg hz]
      have hd' : pyIsdigit (pyStrip x) = true := hd
      unfold pyIsdigit at hd'
      rw [Bool.and_eq_true] at hd'
      obtain ⟨hne, hall⟩ := hd'
      have hsub : ∀ c ∈ (pyStrip x).data.dropWhile (fun c => c == '0'), c ∈ (pyStrip x).data := by
        obtain ⟨u, hu⟩ := exists_append_dropWhile (fun c => c == '0') (pyStrip x).data
        intro c hc
        rw [← hu]
        exact List.mem_append_right u hc
      have halld : ((pyStrip x).data.dropWhile (fun c => c == '0')).all Char.isDigit = true := by
        rw [List.all_eq_true]
        intro c hc
        exact List.all_eq_true.mp hall c (hsub c hc)
      have hdne : (pyStrip x).data.dropWhile (fun c => c == '0') ≠ [] := by
        intro hnil
        exact hz (by rw [hnil])
      have hdig : pyIsdigit (String.mk ((pyStrip x).data.dropWhile (fun c => c == '0'))) = true := by
        unfold pyIsdigit
        rw [Bool.and_eq_true]
        refine ⟨?_, by simpa using halld⟩
        cases hc : (pyStrip x).data.dropWhile (fun c => c == '0') with
        | nil => exact absurd hc hdne
        | cons a t => simp [hc]
      have hdrop : ((pyStrip x).data.dropWhile (fun c => c == '0')).dropWhile (fun c => c == '0')
          = (pyStrip x).data.dropWhile (fun c => c == '0') :=
        dropWhile_idem (fun c => c == '0') (pyStrip x).data
      unfold _normalize_event_id
      rw [pyStrip_of_digits _ (by simpa using halld)]
      simp only [hdig, if_true]
      rw [hdrop]
      rw [if_neg hz]
  · have hd0 : pyIsdigit (pyStrip x) = false := by
      cases hb : pyIsdigit (pyStrip x) with
      | false => rfl
      | true => exact absurd hb hd
    rw [hpass x hd0]
    have h2 : pyIsdigit (pyStrip (pyStrip x)) = false := by rw [pyStrip_idem]; exact hd0
    rw [hpass (pyStrip x) h2, pyStrip_idem]

/-- C7, witness: the amended theorem applied to the non-numeric input
`"x7"`. -/
theorem normalize_idempotent_amended_witness :
    pyIsdigit (pyStrip ("x7")) = false ∧ _normalize_event_id ("x7") = pyStrip ("x7") :=
  ⟨by decide, normalize_idempotent_amended.2.2.2.2.2 ("x7") (by decide)⟩

/-- C1, code evidence: in a store where event `1` is timestamped and
event `2` has a NULL timestamp, the canonical ordering used by the
listings places `2` directly after `1` (so `1` is the immediate
predecessor of `2`), yet the Back query for current event `2` returns no
predecessor: every comparison against the NULL timestamp in its WHERE
clause is unknown, so no row qualifies. -/
theorem back_button_null_timestamp_divergence :
    get_event back_demo_db ("2") = some (mkEv ("2") none) ∧
    (get_events_overview back_demo_db).map (fun p => p.1.event_id) = ["1", "2"] ∧
    back_button_query back_demo_db.events (mkEv ("2") none) = none := by
  refine ⟨by decide, by decide, by decide⟩

/-- C3, counterexample: the store listing on the spec's three-event
example does not return the sequence `3, 10, 5`. -/
theorem canonical_order_counterexample :
    ¬ get_unreviewed_event_ids order_demo_db = ["3", "10", "5"] := by
  decide

/-- C3 (amended): with timestamps ascending first (nulls last) and the
numeric id as tie-break, both listings return the sequence `10, 3, 5` —
`10` (2025-11-01) precedes `3` (2025-11-03), and the null-timestamp
event `5` comes last. -/
theorem canonical_order_amended :
    get_unreviewed_event_ids order_demo_db = ["10", "3", "5"] ∧
    (get_events_overview order_demo_db).map (fun p => p.1.event_id) = ["10", "3", "5"] := by
  refine ⟨by decide, by decide⟩

/-- C8: the bulk event upsert writes only the `events` table, so the
`event_status` and `counts` tables are unchanged by it — in particular
running it a second time with the same rows also leaves them unchanged. -/
theorem upsert_events_frame (db : DB) (rows : List EventRow) :
    (upsert_events db rows).event_status = db.event_status ∧
    (upsert_events db rows).counts = db.counts ∧
    (upsert_events (upsert_events db rows) rows).event_status
      = (upsert_events db rows).event_status ∧
    (upsert_events (upsert_events db rows) rows).counts = (upsert_events db rows).counts :=
  ⟨rfl, rfl, rfl, rfl⟩

/-- C9: when a log is present but parsing yields zero events, the
Index/Reload handler surfaces the no-data error and returns the store
unchanged — no events are upserted. -/
theorem reload_no_data_halts (db : DB) (lines : List String) (y : Int)
    (files : List String) (root : String) (h : (parse_log y lines).1 = []) :
    index_reload db (some lines) y files root = (db, some no_data_msg) := by
  simp [index_reload, build_event_rows, h]

/-- C9, witness: a header-only log parses to zero events and the reload
leaves the populated demo store untouched. -/
theorem reload_no_data_halts_witness :
    (parse_log 2025 [("no events here")]).1 = [] ∧
    index_reload save_demo_db (some [("no events here")]) 2025 [] ("lib")
      = (save_demo_db, some no_data_msg) :=
  ⟨by decide, reload_no_data_halts save_demo_db [("no events here")] 2025 [] ("lib") (by decide)⟩

/-- Rows that survive a filter excluding a key never satisfy a filter
requiring it. -/
theorem filter_ne_then_eq (l : List CountRow) (id : String) :
    (l.filter (fun c => !(c.event_id == id))).filter (fun c => c.event_id == id) = [] := by
  induction l with
  | nil => rfl
  | cons c t ih =>
    by_cases h : c.event_id == id
    · simp [List.filter_cons, h, ih]
    · simp only [List.filter_cons, h, Bool.not_false, if_true]
      simp [List.filter_cons, h, ih]

/-- Reading back rows built from tally entries for a fixed event id
recovers exactly those entries. -/
theorem map_filter_extract (id : String) (l : List ((String × String) × Int)) :
    (((l.map (tally_count_row id)).filter (fun c => c.event_id == id)).map
      (fun c => ((c.species, c.movement), c.count))) = l := by
  induction l with
  | nil => rfl
  | cons e t ih => simp [List.filter_cons, tally_count_row, ih]

/-- C2: `save_event` replaces the event's counts with exactly the
strictly positive tally entries and upserts the status row, committing
at the end; reloading the tally afterwards returns exactly the positive
entries; and a failure injected after any strict prefix of the
statements (before the commit) leaves the durable store unchanged. -/
theorem save_event_atomic (db : DB) (event_id : String)
    (tally : List ((String × String) × Int)) (notes : String) (ft : Int) (ra : String)
    (_hkeys : (tally.map Prod.fst).Nodup) :
    (save_event db event_id tally notes ft ra).counts
      = db.counts.filter (fun c => !(c.event_id == event_id))
          ++ positive_count_rows event_id tally ∧
    (save_event db event_id tally notes ft ra).event_status
      = upsertStatusRow db.event_status
          { event_id := event_id, false_trigger := ft, notes := notes,
            reviewed_at := some ra } ∧
    (save_event db event_id tally notes ft ra).events = db.events ∧
    load_counts (save_event db event_id tally notes ft ra) event_id
      = tally.filter (fun e => 0 < e.2) ∧
    (∀ k : Nat, k ≤ 3 →
      (run_save db event_id tally notes ft ra (saveEventSteps.take k)).1 = db) := by
  refine ⟨rfl, rfl, rfl, ?_, ?_⟩
  · show ((db.counts.filter (fun c => !(c.event_id == event_id))
        ++ positive_count_rows event_id tally).filter (fun c => c.event_id == event_id)).map
        (fun c => ((c.species, c.movement), c.count)) = tally.filter (fun e => 0 < e.2)
    rw [List.filter_append, filter_ne_then_eq, List.nil_append]
    exact map_filter_extract event_id (tally.filter (fun e => 0 < e.2))
  · intro k hk
    interval_cases k <;> rfl

/-- C2, witness: the atomicity conjunct applied after the first two
statements (tally deleted and re-inserted, commit not reached) on the
demo store. -/
theorem save_event_atomic_witness :
    (save_demo_tally.map Prod.fst).Nodup ∧
    (run_save save_demo_db ("7") save_demo_tally ("n") 0 ("2025-05-05")
      (saveEventSteps.take 2)).1 = save_demo_db :=
  ⟨by decide, (save_event_atomic save_demo_db ("7") save_demo_tally ("n") 0 ("2025-05-05")
    (by decide)).2.2.2.2 2 (by decide)⟩

/-- C5: a reconciled event has `has_video = true` exactly when the video
index contains its id directly or under the normalized form; on a miss
both path fields are empty; and reconciliation is total — it yields one
row per parsed event no matter how many lack a video. -/
theorem reconcile_has_video_iff (vidx : List (String × String)) (root : String)
    (r : RawEvent) :
    ((reconcile_row vidx root r).has_video = true ↔
      ((assocLookup vidx r.event_id).isSome ∨
        (assocLookup vidx (_normalize_event_id r.event_id)).isSome)) ∧
    ((reconcile_row vidx root r).has_video = false →
      (reconcile_row vidx root r).video_abs = ("") ∧
      (reconcile_row vidx root r).video_rel = ("")) ∧
    (∀ parsed : List RawEvent, (reconcile_rows parsed vidx root).length = parsed.length) := by
  cases h1 : assocLookup vidx r.event_id with
  | none =>
    cases h2 : assocLookup vidx (_normalize_event_id r.event_id) with
    | none =>
      refine ⟨by simp [reconcile_row, h1, h2, Option.orElse],
        by simp [reconcile_row, h1, h2, Option.orElse],
        fun parsed => by simp [reconcile_rows]⟩
    | some p =>
      refine ⟨by simp [reconcile_row, h1, h2, Option.orElse],
        by simp [reconcile_row, h1, h2, Option.orElse],
        fun parsed => by simp [reconcile_rows]⟩
  | some p =>
    refine ⟨by simp [reconcile_row, h1, Option.orElse],
      by simp [reconcile_row, h1, Option.orElse],
      fun parsed => by simp [reconcile_rows]⟩

/-- C5, witness: the event with id `007` matches the demo index through
its normalized id `7`. -/
theorem reconcile_has_video_iff_witness :
    (reconcile_row video_demo_idx ("lib") video_demo_raw).has_video = true :=
  (reconcile_has_video_iff video_demo_idx ("lib") video_demo_raw).1.mpr (Or.inr (by decide))

/-- C6: once the `[data]` marker has been seen, a line with fewer than 9
whitespace tokens, or whose month, day, hour or minute token fails
integer parsing, contributes no event row — the loop state's row list is
unchanged (the parser is a total function, so no exception can occur). -/
theorem parse_skips_malformed_data_lines (y : Int) (st : ParseState) (line : String)
    (hsaw : st.saw_data_marker = true) (_hin : st.in_data = true)
    (hp : (pySplitWs (pyStrip line)).length < 9 ∨
      pyInt? ((pySplitWs (pyStrip line)).getD 3 ("")) = none ∨
      pyInt? ((pySplitWs (pyStrip line)).getD 4 ("")) = none ∨
      pyInt? ((pySplitWs (pyStrip line)).getD 5 ("")) = none ∨
      pyInt? ((pySplitWs (pyStrip line)).getD 6 ("")) = none) :
    (parseLine y st line).rows = st.rows := by
  unfold parseLine
  dsimp only
  split
  · rfl
  · split
    · rfl
    · split
      · rfl
      · split
        · rfl
        · split
          · rename_i hnosaw
            rw [hsaw] at hnosaw
            simp at hnosaw
          · split
            · rfl
            · split
              · rfl
              · rename_i h9
                split
                · rename_i month day hour minute hmo hda hho hmi
                  rcases hp with h | h | h | h
                  · exact absurd h h9
                  · rw [h] at hmo
                    cases hmo
                  · rw [h] at hda
                    cases hda
                  · rcases h with h | h
                    · rw [h] at hho
                      cases hho
                    · rw [h] at hmi
                      cases hmi
                · rfl

/-- C6, witness: a three-token line after the marker leaves the row list
unchanged. -/
theorem parse_skips_malformed_data_lines_witness :
    (pySplitWs (pyStrip ("1 2 3"))).length < 9 ∧
    (parseLine 2025 data_state ("1 2 3")).rows = data_state.rows :=
  ⟨by decide, parse_skips_malformed_data_lines 2025 data_state ("1 2 3") rfl rfl
    (Or.inl (by decide))⟩

/-- C10: on a columnar event line (at least 9 tokens, month/day/hour/
minute parsing, not a comment or marker), if the second or third token
fails integer parsing then the emitted row has both `m1` and `m2` null,
while `m3` is parsed independently from the ninth token. -/
theorem columnar_m1_m2_parsed_jointly (y : Int) (st : ParseState) (line : String)
    (mo da ho mi : Int)
    (hsaw : st.saw_data_marker = true) (hin : st.in_data = true)
    (hcomment : isCommentLine (pyStrip line) = false)
    (hmarker : ¬ pyLower (pyStrip line) = ("[data]"))
    (h9 : 9 ≤ (pySplitWs (pyStrip line)).length)
    (h12 : pyInt? ((pySplitWs (pyStrip line)).getD 1 ("")) = none ∨
      pyInt? ((pySplitWs (pyStrip line)).getD 2 ("")) = none)
    (hmo : pyInt? ((pySplitWs (pyStrip line)).getD 3 ("")) = some mo)
    (hda : pyInt? ((pySplitWs (pyStrip line)).getD 4 ("")) = some da)
    (hho : pyInt? ((pySplitWs (pyStrip line)).getD 5 ("")) = some ho)
    (hmi : pyInt? ((pySplitWs (pyStrip line)).getD 6 ("")) = some mi) :
    ∃ r : RawEvent, (parseLine y st line).rows = st.rows ++ [r] ∧
      r.m1 = none ∧ r.m2 = none ∧
      r.m3 = pyInt? ((pySplitWs (pyStrip line)).getD 8 ("")) := by
  have hne : ¬ pyStrip line = ("") := by
    intro h0
    rw [h0] at h9
    exact absurd h9 (by decide)
  have hnotin : ¬ (st.saw_data_marker && !st.in_data) = true := by simp [hsaw, hin]
  have hsaw' : ¬ (!st.saw_data_marker) = true := by simp [hsaw]
  have h5 : (pySplitWs (pyStrip line)).length ≠ 5 := by omega
  have hlt : ¬ (pySplitWs (pyStrip line)).length < 9 := by omega
  unfold parseLine
  dsimp only
  rw [if_neg hne, if_neg (by simp [hcomment]), if_neg hmarker, if_neg hnotin, if_neg hsaw',
    if_neg (by simp [h5]), if_neg hlt, hmo, hda, hho, hmi]
  rcases h12 with h | h
  · rw [h]
    exact ⟨_, rfl, rfl, rfl, rfl⟩
  · cases hx : pyInt? ((pySplitWs (pyStrip line)).getD 1 ("")) with
    | none => exact ⟨_, rfl, rfl, rfl, rfl⟩
    | some a =>
      rw [h]
      exact ⟨_, rfl, rfl, rfl, rfl⟩

/-- C10, witness: the line `7 a 2 11 3 14 30 + 5` (second token
non-numeric, third numeric) emits a row with both measurements null and
`m3 = 5`. -/
theorem columnar_m1_m2_parsed_jointly_witness :
    pyInt? ((pySplitWs (pyStrip ("7 a 2 11 3 14 30 + 5"))).getD 1 ("")) = none ∧
    ∃ r : RawEvent, (parseLine 2025 data_state ("7 a 2 11 3 14 30 + 5")).rows
        = data_state.rows ++ [r] ∧
      r.m1 = none ∧ r.m2 = none ∧
      r.m3 = pyInt? ((pySplitWs (pyStrip ("7 a 2 11 3 14 30 + 5"))).getD 8 ("")) :=
  ⟨by decide, columnar_m1_m2_parsed_jointly 2025 data_state ("7 a 2 11 3 14 30 + 5")
    11 3 14 30 rfl rfl (by decide) (by decide) (by decide) (Or.inl (by decide))
    (by decide) (by decide) (by decide) (by decide)⟩

/-- C4, counterexample: in `mixed_stamp_demo_lines` the first line whose
5 tokens are all numeric is `26 11 03 14 30`, yet the parse uses base
year 2025, taken from the earlier line `25 x x x x` whose first token
alone is numeric — the claim's base year 2026 is not used. -/
theorem folder_stamp_counterexample :
    (pySplitWs ("26 11 03 14 30")).length = 5 ∧
    (pySplitWs ("26 11 03 14 30")).all pyIsdigit = true ∧
    (pySplitWs ("25 x x x x")).length = 5 ∧
    ¬ (pySplitWs ("25 x x x x")).all pyIsdigit = true ∧
    (parse_log 2024 mixed_stamp_demo_lines).1.map RawEvent.ts = ["2025-11-03 14:30:00"] ∧
    ¬ (parse_log 2024 mixed_stamp_demo_lines).1.map RawEvent.ts = ["2026-11-03 14:30:00"] := by
  refine ⟨by decide, by decide, by decide, by decide, by decide, by decide⟩

/-- Once the folder stamp has set the base year, the current calendar
year no longer influences the line handler. -/
theorem parseLine_base_year_set (y b : Int) (st : ParseState) (line : String)
    (hb : st.base_year = some b) : parseLine y st line = parseLine b st line := by
  unfold parseLine
  dsimp only
  rw [hb]
  rfl

set_option maxHeartbeats 1600000 in
/-- C4 (amended): the first 5-token data line whose FIRST token is
numeric (the other four tokens need not be) is consumed as the one-time
folder stamp — it yields no event row and caches base year `2000 + YY`;
the stamp `25 11 03 14 30` followed by an event line with month 11 and
day 3 produces the year 2025; and with no stamp the base year is the
current calendar year at parse time. -/
theorem folder_stamp_amended :
    (∀ (y : Int) (st : ParseState) (line : String),
      st.saw_data_marker = true → st.in_data = true → st.base_year = none →
      isCommentLine (pyStrip line) = false → ¬ pyLower (pyStrip line) = ("[data]") →
      (pySplitWs (pyStrip line)).length = 5 →
      pyIsdigit ((pySplitWs (pyStrip line)).getD 0 ("")) = true →
      parseLine y st line =
        { st with
            base_year := some (2000 + Int.ofNat
              (digitsToNat ((pySplitWs (pyStrip line)).getD 0 ("")).data))
            folder_stamp := some (String.intercalate (" ") (pySplitWs (pyStrip line))) }) ∧
    (∀ y : Int, (parse_log y stamp_demo_lines).1.map RawEvent.ts = ["2025-11-03 14:30:00"]) ∧
    (∀ y : Int, (parse_log y no_stamp_demo_lines).1.map RawEvent.ts
      = [pyFmtInt 4 y ++ ("-11-03 14:30:00")]) := by
  refine ⟨?_, ?_, ?_⟩
  · intro y st line hsaw hin hbase hcomment hmarker h5 hdig
    have hne : ¬ pyStrip line = ("") := by
      intro h0
      rw [h0] at h5
      exact absurd h5 (by decide)
    have hnotin : ¬ (st.saw_data_marker && !st.in_data) = true := by simp [hsaw, hin]
    have hsaw' : ¬ (!st.saw_data_marker) = true := by simp [hsaw]
    have hcond : ((pySplitWs (pyStrip line)).length == 5
        && pyIsdigit ((pySplitWs (pyStrip line)).getD 0 (""))
        && st.base_year.isNone) = true := by
      rw [h5, hdig, hbase]
      rfl
    unfold parseLine
    dsimp only
    rw [if_neg hne, if_neg (by simp [hcomment]), if_neg hmarker, if_neg hnotin, if_neg hsaw',
      if_pos hcond]
  · intro y
    show (parseLine y (parseLine y (parseLine y initParseState ("[data]"))
        ("25 11 03 14 30")) ("7 1 2 11 3 14 30 + 5")).rows.map RawEvent.ts
      = ["2025-11-03 14:30:00"]
    have h0 : parseLine y initParseState ("[data]") = data_state := rfl
    have h1 : parseLine y data_state ("25 11 03 14 30")
        = { data_state with
              base_year := some 2025
              folder_stamp := some ("25 11 03 14 30") } := rfl
    rw [h0, h1, parseLine_base_year_set y 2025 _ _ rfl]
    decide
  · intro y
    rfl

/-- C4, witness: the amended stamp rule applied to the line
`25 11 03 14 30` right after the marker. -/
theorem folder_stamp_amended_witness :
    (pySplitWs (pyStrip ("25 11 03 14 30"))).length = 5 ∧
    parseLine 2024 data_state ("25 11 03 14 30") =
      { data_state with
          base_year := some 2025
          folder_stamp := some ("25 11 03 14 30") } :=
  ⟨by decide, folder_stamp_amended.1 2024 data_state ("25 11 03 14 30") rfl rfl rfl
    (by decide) (by decide) (by decide) (by decide)⟩
